import Mathlib

/-!
Verification development for the J-VIBE frontend client
(`frontend/src/components/viewer/ChatInterface.js`,
`frontend/src/components/viewer/DocumentViewer.js`,
`frontend/src/services/apiService.js`, and the upload / inline-viewer
component variants).  The JavaScript client logic is shallowly embedded as
pure Lean functions over explicit state records; React `setState` calls
become functional record updates, `EventSource` callbacks become a stream
event type processed by a step function, and the asynchronous event loop
becomes an explicit operation/step relation.
-/

set_option autoImplicit false

namespace JVibe

/-! ## Chat session client (ChatInterface.js) -/

/-- JS `s.trim()`: strips leading and trailing whitespace, computed on
character lists so it is kernel-reducible. -/
def jsTrim (s : String) : String :=
  String.mk (((s.toList.dropWhile Char.isWhitespace).reverse.dropWhile
    Char.isWhitespace).reverse)

/-- A citation source attached to an assistant message
(fields as used by `ChatInterface.js`). -/
structure Source where
  output_type : String
  output_number : String
  title : String
  page_number : Option Nat
  deriving Repr, DecidableEq

/-- A chat message as built by `handleSendMessage` in `ChatInterface.js`
(`id`, `role`, `content`, `timestamp`, and for assistant messages
`sources`). -/
structure Message where
  id : String
  role : String
  content : String
  timestamp : Nat
  sources : List Source
  deriving Repr, DecidableEq

/-- The React state of `ChatInterface` that the chat logic touches, plus the
in-flight assistant-message accumulator (`assistantMessage` closed over by
the `EventSource.onmessage` handler) and whether the `EventSource` transport
is currently open (`streamingRef.current !== null`). -/
structure ChatState where
  messages : List Message
  inputValue : String
  isStreaming : Bool
  streamingContent : String
  error : Option String
  hasSession : Bool
  streamOpen : Bool
  accId : String
  accContent : String
  accSources : List Source
  deriving Repr, DecidableEq

/-- A parsed server-sent event on the chat message stream, dispatched on
`data.type` in the `onmessage` handler of `handleSendMessage`. -/
inductive StreamEvent where
  | content (delta : String)
  | sources (data : Option (List Source))
  | complete
  | error (msg : Option String)
  | unknown
  deriving Repr, DecidableEq

/-- JS `messageText || inputValue.trim()`: a `null` or empty `messageText`
falls back to the trimmed input field. -/
def effectiveMessage (messageText : Option String) (inputValue : String) : String :=
  match messageText with
  | some t => if t = "" then jsTrim inputValue else t
  | none => jsTrim inputValue

/-- Embedding of `handleSendMessage` up to the point where the stream is
opened: the guard `if (!message || isStreaming || !chatSession) return;`,
the optimistic append of the user message, and the initialisation of the
streaming state and the assistant-message accumulator.  `now` stands for
`Date.now()`. -/
def handleSendMessage (now : Nat) (messageText : Option String) (s : ChatState) : ChatState :=
  let message := effectiveMessage messageText s.inputValue
  if message = "" ∨ s.isStreaming = true ∨ s.hasSession = false then s
  else
    { s with
      inputValue := ""
      messages := s.messages ++
        [{ id := toString now, role := "user", content := message,
           timestamp := now, sources := [] }]
      isStreaming := true
      streamingContent := ""
      error := none
      streamOpen := true
      accId := toString now ++ "_assistant"
      accContent := ""
      accSources := [] }

/-- Embedding of the `switch (data.type)` in the `onmessage` handler of
`handleSendMessage`.

* `content`: appends the delta to both `streamingContent` and
  `assistantMessage.content`.
* `sources`: `assistantMessage.sources = data.data || []`.
* `complete`: appends the accumulated assistant message to `messages`,
  clears the live buffer and the streaming flag, closes the stream.
* `error`: the source does `throw new Error(...)` inside the same `try`
  block whose `catch (parseError)` only logs, so no state field changes
  and the stream stays open.
* unknown types: logged only.
-/
def processStreamEvent (e : StreamEvent) (s : ChatState) : ChatState :=
  match e with
  | .content delta =>
    { s with
      streamingContent := s.streamingContent ++ delta
      accContent := s.accContent ++ delta }
  | .sources data => { s with accSources := data.getD [] }
  | .complete =>
    { s with
      messages := s.messages ++
        [{ id := s.accId, role := "assistant", content := s.accContent,
           timestamp := 0, sources := s.accSources }]
      streamingContent := ""
      isStreaming := false
      streamOpen := false }
  | .error _ => s
  | .unknown => s

/-- Embedding of `handleStopStreaming`: closes the transport if open and
clears the streaming flag and live buffer. -/
def handleStopStreaming (s : ChatState) : ChatState :=
  { s with streamOpen := false, isStreaming := false, streamingContent := "" }

/-- Embedding of the `eventSource.onerror` handler of `handleSendMessage`:
sets a connection error, clears the streaming state and closes the
transport. -/
def handleTransportError (s : ChatState) : ChatState :=
  { s with
    error := some "Connection error. Please try again."
    isStreaming := false
    streamingContent := ""
    streamOpen := false }

/-- Embedding of the local effect of `handleClearChat` on success
(`setMessages([]); setError(null);`), guarded by `if (!chatSession) return`. -/
def handleClearChatLocal (s : ChatState) : ChatState :=
  if s.hasSession = false then s
  else { s with messages := [], error := none }

/-- The operations the UI event loop can perform on the chat state.  Stream
events only reach the `onmessage` handler while the transport is open. -/
inductive ChatOp where
  | send (now : Nat) (messageText : Option String)
  | event (e : StreamEvent)
  | stop
  | transportError
  | clearChat
  | setInput (v : String)

/-- One step of the chat client. -/
def chatStep (op : ChatOp) (s : ChatState) : ChatState :=
  match op with
  | .send now text => handleSendMessage now text s
  | .event e => if s.streamOpen = true then processStreamEvent e s else s
  | .stop => handleStopStreaming s
  | .transportError => handleTransportError s
  | .clearChat => handleClearChatLocal s
  | .setInput v => { s with inputValue := v }

/-- The mount-time state of `ChatInterface` (all `useState` initialisers),
parameterised over whether a chat session object exists. -/
def initialChatState (hasSession : Bool) : ChatState :=
  { messages := []
    inputValue := ""
    isStreaming := false
    streamingContent := ""
    error := none
    hasSession := hasSession
    streamOpen := false
    accId := ""
    accContent := ""
    accSources := [] }

/-- Chat states reachable from an initial state by UI operations. -/
inductive ChatReachable : ChatState → Prop where
  | init (b : Bool) : ChatReachable (initialChatState b)
  | step (op : ChatOp) (s : ChatState) : ChatReachable s → ChatReachable (chatStep op s)

/-- While the transport is open, the `isStreaming` flag is set: every place
in `ChatInterface.js` that clears `isStreaming` also closes or has closed
the `EventSource`. -/
lemma streamOpen_isStreaming {s : ChatState} (h : ChatReachable s)
    (ho : s.streamOpen = true) : s.isStreaming = true := by
  induction h with
  | init b => simp [initialChatState] at ho
  | step op s hs ih =>
    cases op with
    | send now text =>
      simp only [chatStep, handleSendMessage] at ho ⊢
      by_cases hc : effectiveMessage text s.inputValue = "" ∨ s.isStreaming = true ∨
          s.hasSession = false
      · simp only [if_pos hc] at ho ⊢
        exact ih ho
      · simp [if_neg hc]
    | event e =>
      simp only [chatStep] at ho ⊢
      split at ho
      case isTrue hopen =>
        cases e with
        | content delta => simp_all [processStreamEvent]
        | sources data => simp_all [processStreamEvent]
        | complete => simp [processStreamEvent] at ho
        | error msg => simp_all [processStreamEvent]
        | unknown => simp_all [processStreamEvent]
      case isFalse hopen => simp_all
    | stop => simp [chatStep, handleStopStreaming] at ho
    | transportError => simp [chatStep, handleTransportError] at ho
    | clearChat =>
      simp only [chatStep, handleClearChatLocal] at ho ⊢
      by_cases hc : s.hasSession = false
      · simp only [if_pos hc] at ho ⊢
        exact ih ho
      · simp only [if_neg hc] at ho ⊢
        exact ih ho
    | setInput v =>
      simp only [chatStep] at ho ⊢
      exact ih ho

/-- Processing a list of stream events in order. -/
def processStreamEvents (es : List StreamEvent) (s : ChatState) : ChatState :=
  es.foldl (fun t e => chatStep (.event e) t) s

/-! ## Upload file selection and form validation (DocumentUpload.js) -/

/-- A browser `File` object as inspected by `handleFileSelection`
(`file.type` is the MIME content type). -/
structure JsFile where
  name : String
  size : Nat
  type : String
  deriving Repr, DecidableEq

/-- An entry of the `selectedFiles` list built by `handleFileSelection`. -/
structure SelectedFile where
  id : Nat
  file : JsFile
  name : String
  size : Nat
  status : String
  deriving Repr, DecidableEq

/-- The part of the `DocumentUpload` component state that file selection and
form validation read and write. -/
structure UploadFormState where
  compound : String
  studyId : String
  deliverable : String
  selectedFiles : List SelectedFile
  error : Option String
  deriving Repr, DecidableEq

/-- The `fileObjects` array built for an accepted batch; `ids i` stands for
the `Date.now() + Math.random()` identifier generated for the `i`-th file. -/
def mkFileObjects (ids : Nat → Nat) (pdfFiles : List JsFile) : List SelectedFile :=
  (List.range pdfFiles.length).zip pdfFiles |>.map fun p =>
    { id := ids p.1, file := p.2, name := p.2.name, size := p.2.size, status := "pending" }

/-- Embedding of `handleFileSelection` from `DocumentUpload.js`: filters the
batch to PDF content type, rejects the whole batch if any file is non-PDF or
if more than 10 files were given, otherwise appends all of them to
`selectedFiles` and clears the error. -/
def handleFileSelection (ids : Nat → Nat) (files : List JsFile)
    (s : UploadFormState) : UploadFormState :=
  let pdfFiles := files.filter fun f => f.type == "application/pdf"
  if pdfFiles.length ≠ files.length then
    { s with error := some "Only PDF files are supported" }
  else if pdfFiles.length > 10 then
    { s with error := some "Maximum 10 files can be uploaded at once" }
  else
    { s with
      selectedFiles := s.selectedFiles ++ mkFileObjects ids pdfFiles
      error := none }

/-- A batch of `n` distinct well-formed PDF files, used as concrete test
input. -/
def pdfBatch (n : Nat) : List JsFile :=
  (List.range n).map fun i =>
    { name := toString i ++ ".pdf", size := 1, type := "application/pdf" }

/-- A filled-in upload form with no files selected yet, used as concrete
test input. -/
def filledForm : UploadFormState :=
  { compound := "JZP123", studyId := "JZP123-001", deliverable := "Final CSR",
    selectedFiles := [], error := none }

/-- Embedding of `validateForm` from `DocumentUpload.js`: returns the error
set by the first failing check, or `none` when the form is valid.  There is
no upper-bound check on the file count here. -/
def validateForm (s : UploadFormState) : Option String :=
  if jsTrim s.compound = "" then some "Compound is required"
  else if jsTrim s.studyId = "" then some "Study ID is required"
  else if jsTrim s.deliverable = "" then some "Deliverable is required"
  else if s.selectedFiles.length = 0 then some "At least one file must be selected"
  else none

/-! ## REST client error interceptor (apiService.js) -/

/-- The fields of an axios error response the interceptor reads.  A JS
`data?.detail` or `data?.message` that is absent, `null` or empty is falsy;
it is modelled as the empty string. -/
structure AxiosResponse where
  status : Nat
  detail : String
  message : String
  deriving Repr, DecidableEq

/-- An axios error as seen by the response interceptor: `response` is set
when the server answered with a non-2xx status, otherwise `hasRequest` tells
whether a request went out without any response. -/
structure AxiosError where
  response : Option AxiosResponse
  hasRequest : Bool
  message : String
  deriving Repr, DecidableEq

/-- The three failure classes of the REST client. -/
inductive ErrClass where
  | httpError
  | networkError
  | unexpected
  deriving Repr, DecidableEq

/-- Classification implicit in the interceptor's `if/else if/else` chain. -/
def classifyAxiosError (e : AxiosError) : ErrClass :=
  match e.response with
  | some _ => .httpError
  | none => if e.hasRequest then .networkError else .unexpected

/-- Embedding of the response interceptor of `apiService.js`: the message of
the `Error` it throws.

* non-2xx response: `` `${status}: ${detail || message || 'Server error'}` ``;
* request without response: a fixed no-response message;
* anything else: `error.message || 'Unknown error occurred'`.
-/
def responseInterceptorMessage (e : AxiosError) : String :=
  match e.response with
  | some r =>
    toString r.status ++ ": " ++
      (if r.detail ≠ "" then r.detail
       else if r.message ≠ "" then r.message
       else "Server error")
  | none =>
    if e.hasRequest then "No response from server. Please check your connection."
    else if e.message ≠ "" then e.message
    else "Unknown error occurred"

/-! ## Base-path resolver (apiService.js, `getEventSourceBaseURL` /
`getBaseURL` full-URL branch) -/

/-- JS `s.startsWith(pre)`, computed on character lists. -/
def jsStartsWith (s pre : String) : Bool :=
  pre.toList.isPrefixOf s.toList

/-- Characters ending the host part of a URL. -/
def isHostEnd (c : Char) : Bool :=
  c == '/' || c == '?' || c == '#'

/-- Characters ending the path part of a URL. -/
def isPathEnd (c : Char) : Bool :=
  c == '?' || c == '#'

/-- Longest prefix whose characters all fail `p`. -/
def takeUntil (p : Char → Bool) : List Char → List Char
  | [] => []
  | c :: cs => if p c then [] else c :: takeUntil p cs

/-- What `takeUntil` leaves behind. -/
def dropUntil (p : Char → Bool) : List Char → List Char
  | [] => []
  | c :: cs => if p c then c :: cs else dropUntil p cs

/-- Modelled platform behavior of `new URL(str).pathname` applied to the
text after an `http://` or `https://` scheme: the host runs to the first
`/`, `?` or `#`; an empty host makes the constructor throw (`none`); the
pathname is the part from the first `/` up to a query or fragment, or `/`
when the URL has no path.  (URL normalisation of exotic characters is out
of scope; the inputs the claims exercise contain none.) -/
def urlPathnameAfterScheme (rest : List Char) : Option (List Char) :=
  let host := takeUntil isHostEnd rest
  let tail := dropUntil isHostEnd rest
  if host.isEmpty then none
  else
    match tail with
    | [] => some ['/']
    | c :: _ => if c == '/' then some (takeUntil isPathEnd tail) else some ['/']

/-- Modelled platform behavior of `new URL(str).pathname` for a string that
starts with `http://` or `https://`; `none` when the constructor throws. -/
def urlPathnameOf (s : String) : Option (List Char) :=
  if jsStartsWith s "http://" then urlPathnameAfterScheme (s.toList.drop 7)
  else if jsStartsWith s "https://" then urlPathnameAfterScheme (s.toList.drop 8)
  else none

/-- The guard `basePath.startsWith('http://') || basePath.startsWith('https://')`
of `getEventSourceBaseURL` / `getBaseURL`. -/
def isFullURL (s : String) : Bool :=
  jsStartsWith s "http://" || jsStartsWith s "https://"

/-- Embedding of the clean-up block of `getEventSourceBaseURL` (and
`getBaseURL`): for a non-empty base path, prepend `/` when missing
(`startsWith('/')`) and remove one trailing `/` (`slice(0, -1)` after
`endsWith('/')`). -/
def cleanupBasePath (b : List Char) : List Char :=
  if b.isEmpty then b
  else
    let b1 := if b.head? = some '/' then b else '/' :: b
    if b1.getLast? = some '/' then b1.dropLast else b1

/-- Embedding of `getEventSourceBaseURL` restricted to the case where the
server-provided base path `raw` is a non-empty (truthy) global: a full URL
is replaced by its extracted path component (or `''` when `new URL` throws),
then the clean-up block runs. -/
def normalizeServerBasePath (raw : String) : String :=
  let basePath : List Char :=
    if isFullURL raw then (urlPathnameOf raw).getD []
    else raw.toList
  String.mk (cleanupBasePath basePath)

/-! ## Inline PDF viewer variant (part_006 DocumentViewer):
`navigateToPage` clamping and `handleSourceClick` effects -/

/-- The observable effects of a citation click that the inline-viewer
coordinator can emit, in order.  The first three constructors come from the
source (`navigateToPage` call, the `handleSearch` 500ms debounce timer on
`performSearch`, and a snackbar); the last two model the spec's vocabulary
of cross-frame `goToPage` / `search` viewer messages, which the claim says
are sent. -/
inductive ViewerEffect where
  | navigate (page : Int)
  | scheduleSearch (text : String) (delayMs : Nat)
  | snackbar (message : String) (severity : String)
  | postGoToPage (page : Int)
  | postSearch (text : String)
  deriving Repr, DecidableEq

/-- Embedding of the page clamp of `navigateToPage` in the inline viewer
variant: `Math.max(1, Math.min(numPages, pageNum))` becomes the new
`pageNumber` state. -/
def navigateToPage (numPages : Int) (pageNum : Int) : Int :=
  max 1 (min numPages pageNum)

/-- Embedding of `handleSourceClick` from the inline viewer variant as the
ordered effect trace: with a valid positive page number it calls
`navigateToPage` immediately, then (when search text is present)
`handleSearch`, which schedules `performSearch` behind a fixed 500ms
debounce, then shows a success snackbar; otherwise it only shows a
warning snackbar. -/
def handleSourceClickEffects (pageNumber : Option Int) (searchText : Option String) :
    List ViewerEffect :=
  match pageNumber with
  | some p =>
    if p > 0 then
      [ViewerEffect.navigate p] ++
      (match searchText with
       | some t => [ViewerEffect.scheduleSearch t 500]
       | none => []) ++
      [ViewerEffect.snackbar ("Navigated to page " ++ toString p) "success"]
    else
      [ViewerEffect.snackbar "Unable to navigate: invalid page number" "warning"]
  | none => [ViewerEffect.snackbar "Unable to navigate: invalid page number" "warning"]

/-- Modelled from the spec: the cross-frame message sequence the claim says
a citation click produces — a `goToPage` message immediately, then after the
fixed delay a `search` message. -/
def specClaimedSourceClickTrace (p : Int) (t : String) : List ViewerEffect :=
  [ViewerEffect.postGoToPage p, ViewerEffect.postSearch t]

/-! ## Chat history clearing (handleClearChat / clearChatHistory) -/

/-- The request body of `clearChatHistory` in `apiService.js`:
`POST /chat/session/{id}/clear` with `keep_system_messages`. -/
structure ClearRequest where
  sessionId : String
  keepSystemMessages : Bool
  deriving Repr, DecidableEq

/-- Embedding of the success path of `handleClearChat`: the server round
trip `clearChatHistory(chatSession.id, true)` followed by the local updates
`setMessages([]); setError(null);`. -/
def handleClearChatSuccess (sessionId : String) (s : ChatState) :
    ClearRequest × ChatState :=
  ({ sessionId := sessionId, keepSystemMessages := true },
   { s with messages := [], error := none })

/-! ## Helper lemmas -/

/-- Every pathname the modelled URL parser produces starts with `/`. -/
lemma urlPathnameAfterScheme_head {rest p : List Char}
    (h : urlPathnameAfterScheme rest = some p) : p.head? = some '/' := by
  unfold urlPathnameAfterScheme at h
  dsimp only at h
  by_cases he : (takeUntil isHostEnd rest).isEmpty
  · rw [if_pos he] at h
    cases h
  · rw [if_neg he] at h
    rcases hd : dropUntil isHostEnd rest with _ | ⟨c, t⟩
    · rw [hd] at h
      simp only [Option.some.injEq] at h
      subst h
      rfl
    · rw [hd] at h
      dsimp only at h
      by_cases hc : (c == '/') = true
      · rw [if_pos hc] at h
        simp only [Option.some.injEq] at h
        subst h
        have hc2 : c = '/' := by simpa using hc
        subst hc2
        have hpe : isPathEnd '/' = false := rfl
        simp [takeUntil, hpe]
      · rw [if_neg hc] at h
        simp only [Option.some.injEq] at h
        subst h
        rfl

/-- Every pathname of a full URL starts with `/`. -/
lemma urlPathnameOf_head {s : String} {p : List Char}
    (h : urlPathnameOf s = some p) : p.head? = some '/' := by
  unfold urlPathnameOf at h
  split at h
  · exact urlPathnameAfterScheme_head h
  · split at h
    · exact urlPathnameAfterScheme_head h
    · cases h

/-- On a base path that already starts with `/`, the clean-up block only
removes one trailing `/`. -/
lemma cleanupBasePath_of_head_slash {p : List Char} (hp : p.head? = some '/') :
    cleanupBasePath p = if p.getLast? = some '/' then p.dropLast else p := by
  unfold cleanupBasePath
  cases p with
  | nil => cases hp
  | cons c cs =>
    simp only [List.head?_cons, Option.some.injEq] at hp
    subst hp
    simp [List.isEmpty]

/-- Cleaning a base path that starts with `/` yields either the empty path
or a path that still starts with `/`. -/
lemma cleanupBasePath_head {p : List Char} (hp : p.head? = some '/') :
    cleanupBasePath p = [] ∨ (cleanupBasePath p).head? = some '/' := by
  rw [cleanupBasePath_of_head_slash hp]
  cases p with
  | nil => cases hp
  | cons c cs =>
    simp only [List.head?_cons, Option.some.injEq] at hp
    subst hp
    by_cases hl : (('/' : Char) :: cs).getLast? = some '/'
    · rw [if_pos hl]
      cases cs with
      | nil => left; rfl
      | cons d ds => right; rfl
    · rw [if_neg hl]
      right
      rfl

/-- A batch containing a non-PDF file makes the PDF filter strictly
shorter than the batch. -/
lemma filter_length_ne_of_nonpdf {files : List JsFile}
    (h : ∃ f ∈ files, f.type ≠ "application/pdf") :
    (files.filter fun f => f.type == "application/pdf").length ≠ files.length := by
  intro hlen
  obtain ⟨f, hf, hft⟩ := h
  have hall := List.filter_eq_self.mp ((List.filter_sublist files).eq_of_length hlen)
  exact hft (by simpa using hall f hf)

/-- `mkFileObjects` produces one selected-file entry per input file. -/
lemma mkFileObjects_length (ids : Nat → Nat) (l : List JsFile) :
    (mkFileObjects ids l).length = l.length := by
  simp [mkFileObjects]

/-! ## Claim theorems -/

/-- C1: after a successful `sendMessage`, receiving `content` "Hel", then
`content` "lo", then a `sources` event with list `S`, then `complete`,
appends exactly one assistant message to the history, with content
`"Hello"` and sources `S`, and leaves the live-display buffer empty and the
streaming flag cleared. -/
theorem chat_stream_reconciles_hello (s0 : ChatState) (now : Nat) (m : String)
    (S : List Source) (hm : m ≠ "") (hstream : s0.isStreaming = false)
    (hsess : s0.hasSession = true) :
    (chatStep (.send now (some m)) s0).messages =
      s0.messages ++ [{ id := toString now, role := "user", content := m,
                        timestamp := now, sources := [] }] ∧
    (processStreamEvents [.content "Hel", .content "lo", .sources (some S), .complete]
        (chatStep (.send now (some m)) s0)).messages =
      (chatStep (.send now (some m)) s0).messages ++
        [{ id := toString now ++ "_assistant", role := "assistant", content := "Hello",
           timestamp := 0, sources := S }] ∧
    (processStreamEvents [.content "Hel", .content "lo", .sources (some S), .complete]
        (chatStep (.send now (some m)) s0)).streamingContent = "" ∧
    (processStreamEvents [.content "Hel", .content "lo", .sources (some S), .complete]
        (chatStep (.send now (some m)) s0)).isStreaming = false := by
  have hcat : (("" ++ "Hel") ++ "lo" : String) = "Hello" := rfl
  have hcat1 : (("" : String) ++ "Hel") = "Hel" := rfl
  have hcat2 : (("Hel" : String) ++ "lo") = "Hello" := rfl
  simp [chatStep, handleSendMessage, effectiveMessage, hm, hstream, hsess,
    processStreamEvents, processStreamEvent, hcat, hcat1, hcat2]

/-- C1 witness: the scenario run from a fresh session with a concrete
source list. -/
theorem chat_stream_reconciles_hello_witness :
    ("hi" : String) ≠ "" ∧ (initialChatState true).isStreaming = false ∧
    (initialChatState true).hasSession = true ∧
    ((chatStep (.send 3 (some "hi")) (initialChatState true)).messages =
      (initialChatState true).messages ++
        [{ id := toString 3, role := "user", content := "hi",
           timestamp := 3, sources := [] }] ∧
    (processStreamEvents
        [.content "Hel", .content "lo",
         .sources (some [{ output_type := "Table", output_number := "14.1",
                           title := "Demographics", page_number := some 5 }]),
         .complete]
        (chatStep (.send 3 (some "hi")) (initialChatState true))).messages =
      (chatStep (.send 3 (some "hi")) (initialChatState true)).messages ++
        [{ id := toString 3 ++ "_assistant", role := "assistant", content := "Hello",
           timestamp := 0,
           sources := [{ output_type := "Table", output_number := "14.1",
                         title := "Demographics", page_number := some 5 }] }] ∧
    (processStreamEvents
        [.content "Hel", .content "lo",
         .sources (some [{ output_type := "Table", output_number := "14.1",
                           title := "Demographics", page_number := some 5 }]),
         .complete]
        (chatStep (.send 3 (some "hi")) (initialChatState true))).streamingContent = "" ∧
    (processStreamEvents
        [.content "Hel", .content "lo",
         .sources (some [{ output_type := "Table", output_number := "14.1",
                           title := "Demographics", page_number := some 5 }]),
         .complete]
        (chatStep (.send 3 (some "hi")) (initialChatState true))).isStreaming = false) :=
  ⟨by decide, by decide, by decide,
   chat_stream_reconciles_hello (initialChatState true) 3 "hi"
     [{ output_type := "Table", output_number := "14.1",
        title := "Demographics", page_number := some 5 }]
     (by decide) (by decide) (by decide)⟩

/-- C2: while a stream opened by a prior `sendMessage` is still active, a
second `sendMessage` is a no-op — the guard
`if (!message || isStreaming || !chatSession) return;` fires because in
every reachable state an open transport implies `isStreaming`. -/
theorem sendMessage_noop_while_streaming (s : ChatState) (now : Nat)
    (messageText : Option String) (h : ChatReachable s) (ho : s.streamOpen = true) :
    chatStep (.send now messageText) s = s := by
  have hs := streamOpen_isStreaming h ho
  simp [chatStep, handleSendMessage, hs]

/-- C2 witness: sending "again" while the stream opened by sending "hi" is
still active changes nothing. -/
theorem sendMessage_noop_while_streaming_witness :
    ChatReachable (chatStep (.send 3 (some "hi")) (initialChatState true)) ∧
    (chatStep (.send 3 (some "hi")) (initialChatState true)).streamOpen = true ∧
    chatStep (.send 7 (some "again")) (chatStep (.send 3 (some "hi")) (initialChatState true))
      = chatStep (.send 3 (some "hi")) (initialChatState true) :=
  ⟨.step _ _ (.init true), by decide,
   sendMessage_noop_while_streaming _ 7 (some "again") (.step _ _ (.init true)) (by decide)⟩

/-- C3: evaluating the `error` stream event mid-stream shows it is
swallowed — the `throw` in the `case 'error'` arm lands in the enclosing
`catch (parseError)` which only logs, so the state is completely unchanged:
no user-visible error is set, the streaming flag stays set and the
transport stays open, contradicting the claimed surface-and-abort
behavior. -/
theorem chat_error_event_swallowed :
    chatStep (.event (.error (some "boom")))
        (chatStep (.send 3 (some "hi")) (initialChatState true))
      = chatStep (.send 3 (some "hi")) (initialChatState true) ∧
    (chatStep (.send 3 (some "hi")) (initialChatState true)).isStreaming = true ∧
    (chatStep (.send 3 (some "hi")) (initialChatState true)).streamOpen = true ∧
    (chatStep (.send 3 (some "hi")) (initialChatState true)).error = none := by
  refine ⟨by decide, by decide, by decide, by decide⟩

/-- C4 counterexample: a citation click with page 5 and search text
"endpoint" emits no cross-frame `goToPage` or `search` message at all; its
effect trace is not the claimed message sequence. -/
theorem source_click_no_cross_frame_message :
    ViewerEffect.postGoToPage 5 ∉ handleSourceClickEffects (some 5) (some "endpoint") ∧
    ViewerEffect.postSearch "endpoint" ∉ handleSourceClickEffects (some 5) (some "endpoint") ∧
    handleSourceClickEffects (some 5) (some "endpoint") ≠
      specClaimedSourceClickTrace 5 "endpoint" := by
  refine ⟨by decide, by decide, by decide⟩

/-- C4 amended: a citation click with a valid positive page number and a
search text navigates the inline viewer to that page immediately and
schedules the search behind the fixed 500ms debounce delay, in that order,
as direct viewer-state operations rather than cross-frame messages. -/
theorem source_click_navigate_then_delayed_search (p : Int) (t : String) (hp : p > 0) :
    handleSourceClickEffects (some p) (some t) =
      [ViewerEffect.navigate p, ViewerEffect.scheduleSearch t 500,
       ViewerEffect.snackbar ("Navigated to page " ++ toString p) "success"] := by
  simp [handleSourceClickEffects, hp]

/-- C4 amended witness: the concrete click from the claim. -/
theorem source_click_navigate_then_delayed_search_witness :
    (5 : Int) > 0 ∧
    handleSourceClickEffects (some 5) (some "endpoint") =
      [ViewerEffect.navigate 5, ViewerEffect.scheduleSearch "endpoint" 500,
       ViewerEffect.snackbar ("Navigated to page " ++ toString (5 : Int)) "success"] :=
  ⟨by decide, source_click_navigate_then_delayed_search 5 "endpoint" (by decide)⟩

/-- C5 counterexample: for the full-URL base path `http://example.com` the
resolver returns the empty string, which does not have a leading `/` (the
extracted path component `/` loses its only character to the
trailing-slash strip). -/
theorem basepath_root_url_counterexample :
    normalizeServerBasePath "http://example.com" = "" ∧
    (normalizeServerBasePath "http://example.com").toList.head? ≠ some '/' := by
  refine ⟨by decide, by decide⟩

/-- C5 amended: for every full-URL base path the resolver returns the
URL's path component with one trailing `/` removed if present (so a root
path `/` yields the empty string); a nonempty result always starts with
`/`; a malformed full URL falls back to the empty string without an
exception. -/
theorem basepath_fullurl_normalized (raw : String) (h : isFullURL raw = true) :
    (urlPathnameOf raw = none → normalizeServerBasePath raw = "") ∧
    (∀ p, urlPathnameOf raw = some p →
      (normalizeServerBasePath raw).toList =
        (if p.getLast? = some '/' then p.dropLast else p) ∧
      (p = ['/'] → normalizeServerBasePath raw = "") ∧
      (normalizeServerBasePath raw = "" ∨
        (normalizeServerBasePath raw).toList.head? = some '/')) := by
  constructor
  · intro hn
    simp [normalizeServerBasePath, h, hn, cleanupBasePath]
  · intro p hp
    have hhead := urlPathnameOf_head hp
    have hnorm : normalizeServerBasePath raw = String.mk (cleanupBasePath p) := by
      simp [normalizeServerBasePath, h, hp]
    have htl : (normalizeServerBasePath raw).toList = cleanupBasePath p := by
      rw [hnorm]
      rfl
    refine ⟨?_, ?_, ?_⟩
    · rw [htl, cleanupBasePath_of_head_slash hhead]
    · intro hroot
      subst hroot
      rw [hnorm]
      decide
    · rcases cleanupBasePath_head hhead with hnil | hslash
      · left
        rw [hnorm, hnil]
      · right
        rw [htl]
        exact hslash

/-- C5 amended witness: a workbench-style full URL with a trailing slash. -/
theorem basepath_fullurl_normalized_witness :
    isFullURL "https://host.com/connect/app/" = true ∧
    ((urlPathnameOf "https://host.com/connect/app/" = none →
        normalizeServerBasePath "https://host.com/connect/app/" = "") ∧
     (∀ p, urlPathnameOf "https://host.com/connect/app/" = some p →
        (normalizeServerBasePath "https://host.com/connect/app/").toList =
          (if p.getLast? = some '/' then p.dropLast else p) ∧
        (p = ['/'] → normalizeServerBasePath "https://host.com/connect/app/" = "") ∧
        (normalizeServerBasePath "https://host.com/connect/app/" = "" ∨
          (normalizeServerBasePath "https://host.com/connect/app/").toList.head?
            = some '/'))) :=
  ⟨by decide, basepath_fullurl_normalized "https://host.com/connect/app/" (by decide)⟩

/-- C6: a batch containing at least one non-PDF file is rejected entirely —
the error is set and no file, PDF or otherwise, is added to the
selected-files list. -/
theorem nonpdf_batch_rejected (ids : Nat → Nat) (files : List JsFile)
    (s : UploadFormState) (h : ∃ f ∈ files, f.type ≠ "application/pdf") :
    (handleFileSelection ids files s).selectedFiles = s.selectedFiles ∧
    (handleFileSelection ids files s).error = some "Only PDF files are supported" := by
  have hne := filter_length_ne_of_nonpdf h
  simp [handleFileSelection, hne]

/-- C6 witness: a batch of one PDF and one text file is rejected whole. -/
theorem nonpdf_batch_rejected_witness :
    (∃ f ∈ [({ name := "a.pdf", size := 10, type := "application/pdf" } : JsFile),
            { name := "b.txt", size := 5, type := "text/plain" }],
        f.type ≠ "application/pdf") ∧
    ((handleFileSelection (fun i => i)
        [{ name := "a.pdf", size := 10, type := "application/pdf" },
         { name := "b.txt", size := 5, type := "text/plain" }]
        { compound := "", studyId := "", deliverable := "",
          selectedFiles := [], error := none }).selectedFiles =
      ({ compound := "", studyId := "", deliverable := "",
         selectedFiles := [], error := none } : UploadFormState).selectedFiles ∧
     (handleFileSelection (fun i => i)
        [{ name := "a.pdf", size := 10, type := "application/pdf" },
         { name := "b.txt", size := 5, type := "text/plain" }]
        { compound := "", studyId := "", deliverable := "",
          selectedFiles := [], error := none }).error =
      some "Only PDF files are supported") :=
  ⟨by decide,
   nonpdf_batch_rejected (fun i => i)
     [{ name := "a.pdf", size := 10, type := "application/pdf" },
      { name := "b.txt", size := 5, type := "text/plain" }]
     { compound := "", studyId := "", deliverable := "",
       selectedFiles := [], error := none }
     (by decide)⟩

/-- C7: a batch of 11 valid PDFs is rejected by the pre-check (error set,
nothing accepted), while a batch of exactly 10 valid PDFs passes it (all 10
are appended to the selected list, the error is cleared) and the subsequent
`validateForm` does not reject the state for count. -/
theorem upload_batch_size_limits (ids : Nat → Nat) (files11 files10 : List JsFile)
    (s : UploadFormState)
    (h11len : files11.length = 11)
    (h11pdf : ∀ f ∈ files11, f.type = "application/pdf")
    (h10len : files10.length = 10)
    (h10pdf : ∀ f ∈ files10, f.type = "application/pdf")
    (hc : jsTrim s.compound ≠ "") (hstudy : jsTrim s.studyId ≠ "")
    (hd : jsTrim s.deliverable ≠ "") :
    (handleFileSelection ids files11 s).error =
      some "Maximum 10 files can be uploaded at once" ∧
    (handleFileSelection ids files11 s).selectedFiles = s.selectedFiles ∧
    (handleFileSelection ids files10 s).selectedFiles =
      s.selectedFiles ++ mkFileObjects ids files10 ∧
    (handleFileSelection ids files10 s).error = none ∧
    (mkFileObjects ids files10).length = 10 ∧
    validateForm (handleFileSelection ids files10 s) = none := by
  have hf11 : files11.filter (fun f => f.type == "application/pdf") = files11 :=
    List.filter_eq_self.mpr fun a ha => by simp [h11pdf a ha]
  have hf10 : files10.filter (fun f => f.type == "application/pdf") = files10 :=
    List.filter_eq_self.mpr fun a ha => by simp [h10pdf a ha]
  have hsel10 : handleFileSelection ids files10 s =
      { s with selectedFiles := s.selectedFiles ++ mkFileObjects ids files10,
               error := none } := by
    simp [handleFileSelection, hf10, h10len]
  refine ⟨?_, ?_, ?_, ?_, ?_, ?_⟩
  · simp [handleFileSelection, hf11, h11len]
  · simp [handleFileSelection, hf11, h11len]
  · rw [hsel10]
  · rw [hsel10]
  · rw [mkFileObjects_length, h10len]
  · rw [hsel10]
    simp only [validateForm, hc, hstudy, hd, if_neg]
    have : (s.selectedFiles ++ mkFileObjects ids files10).length ≠ 0 := by
      rw [List.length_append, mkFileObjects_length, h10len]
      omega
    simp_all

/-- C7 witness: concrete batches of 11 and 10 PDF files with a filled-in
form. -/
theorem upload_batch_size_limits_witness :
    (pdfBatch 11).length = 11 ∧
    (pdfBatch 10).length = 10 ∧
    (handleFileSelection (fun i => i) (pdfBatch 11) filledForm).error =
      some "Maximum 10 files can be uploaded at once" ∧
    (handleFileSelection (fun i => i) (pdfBatch 10) filledForm).error = none ∧
    validateForm (handleFileSelection (fun i => i) (pdfBatch 10) filledForm) = none := by
  have h := upload_batch_size_limits (fun i => i) (pdfBatch 11) (pdfBatch 10) filledForm
    (by decide) (by decide) (by decide) (by decide) (by decide) (by decide) (by decide)
  exact ⟨by decide, by decide, h.1, h.2.2.2.1, h.2.2.2.2.2⟩

/-- C8: every REST-client failure falls into exactly one of three classes
with the corresponding thrown message — non-2xx responses carry the HTTP
status and the server detail/message (else "Server error"), absence of a
response yields the fixed no-response message, and anything else wraps the
original error message. -/
theorem rest_error_taxonomy (e : AxiosError) :
    (classifyAxiosError e = .httpError ↔ e.response.isSome) ∧
    (classifyAxiosError e = .networkError ↔ e.response = none ∧ e.hasRequest = true) ∧
    (classifyAxiosError e = .unexpected ↔ e.response = none ∧ e.hasRequest = false) ∧
    (∀ r, e.response = some r →
      responseInterceptorMessage e =
        toString r.status ++ ": " ++
          (if r.detail ≠ "" then r.detail
           else if r.message ≠ "" then r.message
           else "Server error")) ∧
    (e.response = none → e.hasRequest = true →
      responseInterceptorMessage e = "No response from server. Please check your connection.") ∧
    (e.response = none → e.hasRequest = false → e.message ≠ "" →
      responseInterceptorMessage e = e.message) := by
  obtain ⟨resp, hreq, msg⟩ := e
  cases resp with
  | some r =>
    cases hreq <;> simp [classifyAxiosError, responseInterceptorMessage]
  | none =>
    cases hreq
    · simp only [classifyAxiosError, responseInterceptorMessage]
      refine ⟨by simp, by simp, by simp, by simp, by simp, ?_⟩
      intro _ _ hmsg
      simp [hmsg]
    · simp [classifyAxiosError, responseInterceptorMessage]

/-- C8 witness: one concrete error per class. -/
theorem rest_error_taxonomy_witness :
    responseInterceptorMessage
      { response := some { status := 404, detail := "Not found", message := "" },
        hasRequest := false, message := "boom" } = "404: Not found" ∧
    responseInterceptorMessage
      { response := none, hasRequest := true, message := "boom" } =
      "No response from server. Please check your connection." ∧
    responseInterceptorMessage
      { response := none, hasRequest := false, message := "boom" } = "boom" := by
  refine ⟨?_, ?_, ?_⟩
  · have h := (rest_error_taxonomy
      { response := some { status := 404, detail := "Not found", message := "" },
        hasRequest := false, message := "boom" }).2.2.2.1
      { status := 404, detail := "Not found", message := "" } rfl
    rw [h]
    decide
  · exact (rest_error_taxonomy
      { response := none, hasRequest := true, message := "boom" }).2.2.2.2.1 rfl rfl
  · exact (rest_error_taxonomy
      { response := none, hasRequest := false, message := "boom" }).2.2.2.2.2 rfl rfl
      (by decide)

/-- C9 counterexample: a session whose local history holds one
system-flagged message; `handleClearChat` sends `keep_system_messages =
true` but afterwards the locally visible message list is empty instead of
retaining that message. -/
theorem clear_history_retention_counterexample :
    (handleClearChatSuccess "sess1"
      { initialChatState true with
        messages := [{ id := "m1", role := "system", content := "ctx",
                       timestamp := 0, sources := [] }] }).1.keepSystemMessages = true ∧
    (({ initialChatState true with
        messages := [{ id := "m1", role := "system", content := "ctx",
                       timestamp := 0, sources := [] }] } : ChatState).messages.filter
      fun m => m.role == "system") =
      [{ id := "m1", role := "system", content := "ctx", timestamp := 0, sources := [] }] ∧
    (handleClearChatSuccess "sess1"
      { initialChatState true with
        messages := [{ id := "m1", role := "system", content := "ctx",
                       timestamp := 0, sources := [] }] }).2.messages = [] ∧
    (handleClearChatSuccess "sess1"
      { initialChatState true with
        messages := [{ id := "m1", role := "system", content := "ctx",
                       timestamp := 0, sources := [] }] }).2.messages ≠
      [{ id := "m1", role := "system", content := "ctx", timestamp := 0, sources := [] }] := by
  refine ⟨by decide, by decide, by decide, by decide⟩

/-- C9 amended: `clearHistory` performs the server round trip carrying
`keep_system_messages = true`, and afterwards the locally visible message
list is empty regardless of which messages existed — any retention of
system/context messages is server-side state only. -/
theorem clear_history_empties_local_messages (sessionId : String) (s : ChatState) :
    (handleClearChatSuccess sessionId s).1 =
      { sessionId := sessionId, keepSystemMessages := true } ∧
    (handleClearChatSuccess sessionId s).2.messages = [] ∧
    (handleClearChatSuccess sessionId s).2.error = none := by
  simp [handleClearChatSuccess]

/-- C10: the inline viewer's `navigateToPage` clamps the requested page to
`[1, numPages]`: a request above the page count lands on the last page, a
request below 1 lands on page 1, and the resulting page state never leaves
the document's range. -/
theorem navigateToPage_clamps (numPages p : Int) (h : 1 ≤ numPages) :
    1 ≤ navigateToPage numPages p ∧
    navigateToPage numPages p ≤ numPages ∧
    (numPages < p → navigateToPage numPages p = numPages) ∧
    (p < 1 → navigateToPage numPages p = 1) := by
  unfold navigateToPage
  omega

/-- C10 witness: a 10-page document, requests for pages 15 and 0. -/
theorem navigateToPage_clamps_witness :
    (1 : Int) ≤ 10 ∧
    (1 ≤ navigateToPage 10 15 ∧ navigateToPage 10 15 ≤ 10 ∧
      ((10 : Int) < 15 → navigateToPage 10 15 = 10) ∧
      ((15 : Int) < 1 → navigateToPage 10 15 = 1)) ∧
    (1 ≤ navigateToPage 10 0 ∧ navigateToPage 10 0 ≤ 10 ∧
      ((10 : Int) < 0 → navigateToPage 10 0 = 10) ∧
      ((0 : Int) < 1 → navigateToPage 10 0 = 1)) :=
  ⟨by decide, navigateToPage_clamps 10 15 (by decide), navigateToPage_clamps 10 0 (by decide)⟩

end JVibe
